import Mathlib

/-!
# Verification of the Neurohue token-lifecycle and access-control core

Shallow embedding of the security-critical parts of the two services
(`src/auth` — identity-owning service, `src/org` — relying service):
JWT issuance/verification/rotation/revocation, the Redis-backed
blacklist, rate limiting, brute-force lockout, RBAC role checks and the
login/refresh flows.  Python exceptions are embedded as `Except` errors;
the Redis client is embedded as an explicit store value threaded through
the operations; wall-clock time is an explicit `now : Int` (epoch
seconds) parameter.
-/

namespace Neurohue

/-- `src/auth/src/core/security.py` / `src/org/src/core/security.py`
`TokenType` — the two token kinds the system issues. -/
inductive TokenType
  | access
  | refresh
deriving DecidableEq, Repr

/-- `TokenType.value` — the string stored in the `type` claim. -/
def TokenType.val : TokenType → String
  | .access => "access"
  | .refresh => "refresh"

/-- `SecurityConfig` of `src/auth/src/core/security.py` (identical in
`src/org/src/core/security.py`): the security-related settings the token
manager consults.  The JWT algorithm name is omitted: both encode and
decode use the one configured algorithm, so it is absorbed into the
signature abstraction of `TokenInput.signed`. -/
structure SecurityConfig where
  jwtSecretKey : String
  accessTokenExpireMinutes : Int
  refreshTokenExpireDays : Int
  tokenIssuer : String
  tokenAudience : String
  enableTokenBlacklist : Bool
  redisFailSecure : Bool
  jwtLeewaySeconds : Int
deriving DecidableEq, Repr

/-- The source defaults: 15-minute access tokens, 7-day refresh tokens,
issuer `my-app`, audience `my-app:users`, blacklist on, fail-secure on,
10 s leeway.  The secret is any string of length ≥ 32
(`SecurityConfig.validate` refuses shorter ones at startup). -/
def defaultConfig : SecurityConfig :=
  { jwtSecretKey := "0123456789abcdef0123456789abcdef"
    accessTokenExpireMinutes := 15
    refreshTokenExpireDays := 7
    tokenIssuer := "my-app"
    tokenAudience := "my-app:users"
    enableTokenBlacklist := true
    redisFailSecure := true
    jwtLeewaySeconds := 10 }

/-- The decoded JWT claims dictionary, restricted to the claims the code
reads.  `sub`, `type` and `role` are `Option` because the code reads
them with `payload.get(...)`; a missing `jti` is modelled as `""`
because the code tests it with Python truthiness (`if not jti`), and an
`exp` of `0` is likewise falsy in `revoke_token`. -/
structure Payload where
  sub : Option String
  exp : Int
  iat : Int
  nbf : Int
  iss : String
  aud : String
  jti : String
  type : Option String
  role : Option String
deriving DecidableEq, Repr

/-- A token string as the decoder sees it: empty (`if not token`),
undecodable garbage, or a well-formed compact JWT carrying a claims
payload and signed with some secret. -/
inductive TokenInput
  | empty
  | malformed
  | signed (payload : Payload) (secret : String)
deriving DecidableEq, Repr

/-- The failures of `jose.jwt.decode` that the `except` clauses of
`verify_token` distinguish. -/
inductive DecodeError
  | expiredSignature
  | jwtError
  | otherError
deriving DecidableEq, Repr

/-- Modelled from the spec: the `jose.jwt.decode` call used by
`TokenManager.verify_token` is an external library; §4.2 TokenCodec
gives its contract — signature check against the configured secret,
expiry and not-before checks with `leeway` clock-skew allowance, and
issuer/audience matching.  Signature validity is modelled as equality of
the signing secret with the configured secret.  Signature, nbf and
issuer/audience failures are all `jose.JWTError`s; expiry is the
distinguished `jwt.ExpiredSignatureError`; undecodable input raises an
error reaching the generic handler. -/
def jwtDecode (cfg : SecurityConfig) (now : Int) (input : TokenInput) :
    Except DecodeError Payload :=
  match input with
  | .empty => .error .otherError
  | .malformed => .error .otherError
  | .signed p secret =>
    if secret ≠ cfg.jwtSecretKey then .error .jwtError
    else if now > p.exp + cfg.jwtLeewaySeconds then .error .expiredSignature
    else if now < p.nbf - cfg.jwtLeewaySeconds then .error .jwtError
    else if p.iss ≠ cfg.tokenIssuer then .error .jwtError
    else if p.aud ≠ cfg.tokenAudience then .error .jwtError
    else .ok p

/-- The application error taxonomy of `src/org/src/core/exceptions.py`
(the claims' citation for the exception classes), restricted to the
kinds raised by the modelled operations.  Every one of these classes
derives from `AppException`, which derives from Python's `Exception`.
`uncaught` stands for a raw (non-`AppException`) exception escaping a
flow that installs no handler for it. -/
inductive AuthError
  | invalidToken
  | tokenExpired
  | tokenRevoked
  | tokenTypeInvalid (expected received : Option String)
  | invalidCredentials
  | notAuthorized
  | internalServerError
  | rateLimitExceeded
  | uncaught
deriving DecidableEq, Repr

/-- The revocation-store slice of Redis seen by the token manager:
the client may be unconfigured (`redis_client is None`), configured but
raising on every operation, or live with the list of
`revoked_token:{jti}` keys together with their expiry instants
(a key exists while `now < expiry`). -/
inductive RevStore
  | unavailable
  | failing
  | live (revoked : List (String × Int))
deriving DecidableEq, Repr

/-- `TokenManager.is_token_revoked`
(`src/auth/src/core/security.py:290-313`, identical in
`src/org/src/core/security.py:141-164`): blacklist disabled → `False`;
client `None` or store operation raising → `InternalServerError` under
fail-secure, `False` otherwise; live store → existence of the
`revoked_token:{jti}` key. -/
def is_token_revoked (cfg : SecurityConfig) (store : RevStore) (now : Int)
    (jti : String) : Except AuthError Bool :=
  if ¬ cfg.enableTokenBlacklist then .ok false
  else
    match store with
    | .unavailable =>
      if cfg.redisFailSecure then .error .internalServerError else .ok false
    | .failing =>
      if cfg.redisFailSecure then .error .internalServerError else .ok false
    | .live revoked =>
      .ok (revoked.any fun e => e.1 == jti && now < e.2)

/-- An exception in flight inside the `try` block of `verify_token`:
either a `jose` decoding failure or an application exception raised by
the body itself. -/
inductive VerifyRaise
  | jose (e : DecodeError)
  | app (e : AuthError)
deriving DecidableEq, Repr

/-- The `try` block of `TokenManager.verify_token`
(`src/auth/src/core/security.py:184-209`, identical in
`src/org/src/core/security.py:101-126`): decode, then the token-type
check (raising `TokenTypeInvalid`), then — when the blacklist is
enabled — the `jti` presence check (raising `InvalidToken`) and the
revocation check (`is_token_revoked` may raise `InternalServerError`;
a revoked token raises `TokenRevoked`). -/
def verifyTokenBody (cfg : SecurityConfig) (store : RevStore) (now : Int)
    (input : TokenInput) (expected : TokenType) : Except VerifyRaise Payload :=
  match jwtDecode cfg now input with
  | .error e => .error (.jose e)
  | .ok p =>
    if p.type ≠ some expected.val then
      .error (.app (.tokenTypeInvalid (some expected.val) p.type))
    else if cfg.enableTokenBlacklist then
      if p.jti = "" then .error (.app .invalidToken)
      else
        match is_token_revoked cfg store now p.jti with
        | .error e => .error (.app e)
        | .ok true => .error (.app .tokenRevoked)
        | .ok false => .ok p
    else .ok p

/-- `TokenManager.verify_token`
(`src/auth/src/core/security.py:177-222`, identical in
`src/org/src/core/security.py:94-139`).  The handler chain is, in
order: `except jwt.ExpiredSignatureError` → `TokenExpired`;
`except JWTError` → `InvalidToken`; `except Exception` → `InvalidToken`.
Because every class of `src/org/src/core/exceptions.py` subclasses
`Exception` (via `AppException`), the `TokenTypeInvalid`, `InvalidToken`,
`InternalServerError` and `TokenRevoked` exceptions raised inside the
`try` block are caught by the final catch-all and re-raised as the
generic `InvalidToken("Token is invalid or malformed.")`. -/
def verify_token (cfg : SecurityConfig) (store : RevStore) (now : Int)
    (input : TokenInput) (expected : TokenType) : Except AuthError Payload :=
  if input = .empty then .error .invalidToken
  else
    match verifyTokenBody cfg store now input expected with
    | .ok p => .ok p
    | .error (.jose .expiredSignature) => .error .tokenExpired
    | .error (.jose _) => .error .invalidToken
    | .error (.app _) => .error .invalidToken

/-- `TokenManager._default_expiry` as seconds: ACCESS lives
`ACCESS_TOKEN_EXPIRE_MINUTES` minutes, REFRESH lives
`REFRESH_TOKEN_EXPIRE_DAYS` days. -/
def defaultExpiry (cfg : SecurityConfig) : TokenType → Int
  | .access => cfg.accessTokenExpireMinutes * 60
  | .refresh => cfg.refreshTokenExpireDays * 86400

/-- `TokenManager.create_token` (`src/auth/src/core/security.py:130-160`)
with `expires_delta = None`.  The fresh `str(uuid.uuid4())` is
externalized as the `jti` argument; `additional_claims` is restricted to
the one extra claim any caller could carry that the relying service
reads (`role`) — the flows under `src/` always pass `None`. -/
def create_token (cfg : SecurityConfig) (now : Int) (jti : String)
    (subject : String) (tokenType : TokenType) (role : Option String) :
    TokenInput :=
  .signed
    { sub := some subject
      exp := now + defaultExpiry cfg tokenType
      iat := now
      nbf := now
      iss := cfg.tokenIssuer
      aud := cfg.tokenAudience
      jti := jti
      type := some tokenType.val
      role := role }
    cfg.jwtSecretKey

/-- `jwt.decode(..., verify_signature=False, ...)` inside
`revoke_token`: best-effort claim extraction with no signature, expiry,
audience or issuer checks; undecodable input raises (caught by the
surrounding `except`). -/
def decodeUnsafe : TokenInput → Option Payload
  | .signed p _ => some p
  | _ => none

/-- `TokenManager.revoke_token` (`src/auth/src/core/security.py:225-265`):
blacklist disabled → `False`; client `None` → `False`; claims extracted
without verification; falsy `jti` or `exp` → `False`; already expired →
`True` without a store write; otherwise `SET revoked_token:{jti} reason
EX remaining` (the entry therefore expires exactly at the token's `exp`)
→ `True`, with any raising store operation caught → `False`. -/
def revoke_token (cfg : SecurityConfig) (store : RevStore) (now : Int)
    (input : TokenInput) : Bool × RevStore :=
  if ¬ cfg.enableTokenBlacklist then (false, store)
  else
    match store with
    | .unavailable => (false, store)
    | .failing =>
      match decodeUnsafe input with
      | none => (false, store)
      | some p =>
        if p.jti = "" ∨ p.exp = 0 then (false, store)
        else if p.exp - now ≤ 0 then (true, store)
        else (false, store)
    | .live revoked =>
      match decodeUnsafe input with
      | none => (false, store)
      | some p =>
        if p.jti = "" ∨ p.exp = 0 then (false, store)
        else if p.exp - now ≤ 0 then (true, store)
        else (true, .live ((p.jti, p.exp) :: revoked))

/-- `src/auth/src/models/user_model.py` `UserRole` (the same value set
as `src/org/src/schemas/user_schema.py` `UserRole`). -/
inductive UserRole
  | admin
  | regional_manager
  | cdc
  | therapist
  | staff
deriving DecidableEq, Repr

/-- `UserRole.value` — the wire string of each role. -/
def UserRole.val : UserRole → String
  | .admin => "admin"
  | .regional_manager => "regional_manager"
  | .cdc => "cdc"
  | .therapist => "therapist"
  | .staff => "staff"

/-- `UserRole.priority` of the identity service
(`src/auth/src/models/user_model.py:20-29`). -/
def UserRole.priority : UserRole → Int
  | .staff => 2
  | .therapist => 2
  | .cdc => 3
  | .regional_manager => 4
  | .admin => 5

/-- `UserRole.priority` of the relying service
(`src/org/src/schemas/user_schema.py:12-21`). -/
def orgRolePriority : UserRole → Int
  | .admin => 100
  | .regional_manager => 50
  | .cdc => 40
  | .therapist => 30
  | .staff => 20

/-- `UserRole(role_str)` — Python enum construction by value, raising
`ValueError` (modelled as `none`) on an unknown string. -/
def parseRole : String → Option UserRole
  | "admin" => some .admin
  | "regional_manager" => some .regional_manager
  | "cdc" => some .cdc
  | "therapist" => some .therapist
  | "staff" => some .staff
  | _ => none

/-- `src/auth/src/models/user_model.py` `UserStatus`. -/
inductive UserStatus
  | active
  | inactive
deriving DecidableEq, Repr

/-- The fields of the identity service's persisted `User` that the
modelled flows read.  `id` is the string form of the user's UUID. -/
structure User where
  id : String
  role : UserRole
  status : UserStatus
  hashedPassword : String
deriving DecidableEq, Repr

/-- `RoleChecker.__call__` (`src/auth/src/utils/deps.py:141-173`):
converts the user's role to the enum and compares integer priorities,
raising `NotAuthorized` when the user's priority is strictly below the
required role's, returning the user otherwise. -/
def roleCheckerCall (currentUser : User) (requiredRole : UserRole) :
    Except AuthError User :=
  if currentUser.role.priority < requiredRole.priority then
    .error .notAuthorized
  else .ok currentUser

/-- The rate-limit slice of Redis for one fixed key
`rate_limit:{identifier}:{window_seconds}`
(`src/org/src/services/rate_limit_service.py`): either every operation
raises, or the key holds a counter together with its expiry instant
(the key exists while `now < expiry`; `INCR` on an absent or expired key
recreates it at 1). -/
inductive RateStore
  | failing
  | live (entry : Option (Int × Int))
deriving DecidableEq, Repr

/-- `RateLimitService._check_redis_rate_limit`
(`src/org/src/services/rate_limit_service.py:31-43`) for one
identifier/window key: `INCR` the key, set its TTL to the window length
when the `INCR` created it (`current == 1`), and report limited once the
post-increment count exceeds `max_requests`; any store failure is caught
and reported not-limited (fail open). -/
def checkRedisRateLimit (store : RateStore) (now : Int)
    (maxRequests windowSeconds : Int) : Bool × RateStore :=
  match store with
  | .failing => (false, .failing)
  | .live entry =>
    match entry with
    | some (c, e) =>
      if now < e then (c + 1 > maxRequests, .live (some (c + 1, e)))
      else (1 > maxRequests, .live (some (1, now + windowSeconds)))
    | none => (1 > maxRequests, .live (some (1, now + windowSeconds)))

/-- The brute-force-counter slice of Redis for one fixed key
`failed_auth:{identifier}`: either every operation raises, or the key
holds the failed-attempt count together with its expiry instant. -/
inductive AuthCounterStore
  | failing
  | live (entry : Option (Int × Int))
deriving DecidableEq, Repr

/-- `RateLimitService.is_auth_rate_limited`
(`src/org/src/services/rate_limit_service.py:63-72`): `GET` the
`failed_auth:{identifier}` key; an absent (or expired) key is falsy, so
the result is whether a live count has reached `max_attempts`; any
exception (including an unconfigured client) is caught → `False`. -/
def is_auth_rate_limited (store : AuthCounterStore) (now : Int)
    (maxAttempts : Int) : Bool :=
  match store with
  | .failing => false
  | .live none => false
  | .live (some (c, e)) => if now < e then decide (c ≥ maxAttempts) else false

/-- `RateLimitService.record_failed_auth_attempt`
(`src/org/src/services/rate_limit_service.py:74-83`): `INCR` the
`failed_auth:{identifier}` key, then reset its TTL to
`lockout_duration`; failures are caught and ignored. -/
def record_failed_auth_attempt (store : AuthCounterStore) (now : Int)
    (lockoutDuration : Int) : AuthCounterStore :=
  match store with
  | .failing => .failing
  | .live entry =>
    match entry with
    | some (c, e) =>
      if now < e then .live (some (c + 1, now + lockoutDuration))
      else .live (some (1, now + lockoutDuration))
    | none => .live (some (1, now + lockoutDuration))

/-- `RateLimitService.clear_failed_auth_attempts`
(`src/org/src/services/rate_limit_service.py:85-91`): `DELETE` the
`failed_auth:{identifier}` key; failures are caught and ignored. -/
def clear_failed_auth_attempts (store : AuthCounterStore) :
    AuthCounterStore :=
  match store with
  | .failing => .failing
  | .live _ => .live none

/-- `src/auth/src/schemas/token_schema.py` `TokenResponse`, with the two
token strings kept in their decoded `TokenInput` form. -/
structure TokenResponse where
  accessToken : TokenInput
  refreshToken : TokenInput
deriving DecidableEq, Repr

/-- `AuthService.create_token_pair`
(`src/auth/src/services/auth_service.py:43-54`): one ACCESS and one
REFRESH token for `subject = str(user.id)`, with no additional claims
(in particular, no `role` claim).  The two fresh `jti`s are
externalized as arguments. -/
def create_token_pair (cfg : SecurityConfig) (now : Int)
    (jtiAccess jtiRefresh : String) (user : User) : TokenResponse :=
  { accessToken := create_token cfg now jtiAccess user.id .access none
    refreshToken := create_token cfg now jtiRefresh user.id .refresh none }

/-- `AuthService.login` (`src/auth/src/services/auth_service.py:56-92`).
The password check (`passlib`, external) is abstracted as the
`verifyPassword plain hashed` argument and the user repository as
`userByEmail`; the brute-force counter store for the caller's
`client_ip` is threaded explicitly.  Steps, in order: lockout check
(`max_attempts = 5`) → `InvalidCredentials`; inactive-account check →
`InvalidCredentials`; password check — failure records a failed attempt
(default `lockout_duration = 300`) and raises `InvalidCredentials`;
success clears the counter and issues the pair. -/
def login (cfg : SecurityConfig)
    (verifyPassword : String → String → Bool)
    (userByEmail : String → Option User)
    (authStore : AuthCounterStore) (now : Int)
    (email password : String) (jtiAccess jtiRefresh : String) :
    Except AuthError TokenResponse × AuthCounterStore :=
  if is_auth_rate_limited authStore now 5 then
    (.error .invalidCredentials, authStore)
  else
    match userByEmail email with
    | some u =>
      if u.status ≠ .active then (.error .invalidCredentials, authStore)
      else if verifyPassword password u.hashedPassword then
        (.ok (create_token_pair cfg now jtiAccess jtiRefresh u),
         clear_failed_auth_attempts authStore)
      else
        (.error .invalidCredentials,
         record_failed_auth_attempt authStore now 300)
    | none =>
      (.error .invalidCredentials,
       record_failed_auth_attempt authStore now 300)

/-- `AuthService.refresh_token`
(`src/auth/src/services/auth_service.py:94-126`): verify as REFRESH
(which consults the blacklist), parse the subject with `uuid.UUID`
(abstracted as `parseUUID`; a failure there is an uncaught raw
exception, since `refresh_token` installs no handler), load the user
(absent → `InvalidCredentials`), revoke the presented token (one-time
use), raise `InternalServerError` when revocation reports failure, and
otherwise issue a fresh pair. -/
def refresh_token (cfg : SecurityConfig) (store : RevStore) (now : Int)
    (userById : String → Option User) (parseUUID : String → Option String)
    (jtiAccess jtiRefresh : String) (refreshTok : TokenInput) :
    Except AuthError TokenResponse × RevStore :=
  match verify_token cfg store now refreshTok .refresh with
  | .error e => (.error e, store)
  | .ok payload =>
    match payload.sub.bind parseUUID with
    | none => (.error .uncaught, store)
    | some uid =>
      match userById uid with
      | none => (.error .invalidCredentials, store)
      | some user =>
        let res := revoke_token cfg store now refreshTok
        if res.1 then
          (.ok (create_token_pair cfg now jtiAccess jtiRefresh user), res.2)
        else (.error .internalServerError, res.2)

/-- The identity the relying service constructs from the verified
claims (`src/org/src/schemas/user_schema.py` `UserPayload`). -/
structure UserPayload where
  id : String
  role : UserRole
deriving DecidableEq, Repr

/-- The identity-construction portion of the relying service's
`_authenticate_user_from_token` (`src/org/src/utils/deps.py:61-76`),
applied to the payload returned by `verify_token`: a missing `sub`
raises `InvalidToken`; `uuid.UUID(sub)` (abstracted as `parseUUID`)
raising is caught by the function's `except Exception` → `InvalidToken`;
the role is `UserRole(role_str)` when the `role` claim is truthy —
`ValueError` on an unknown value again caught → `InvalidToken` — and
defaults to `UserRole.STAFF` otherwise.  No database call is made. -/
def orgConstructUser (parseUUID : String → Option String)
    (payload : Payload) : Except AuthError UserPayload :=
  match payload.sub with
  | none => .error .invalidToken
  | some s =>
    match parseUUID s with
    | none => .error .invalidToken
    | some uid =>
      let roleStr := payload.role.getD ""
      if roleStr = "" then .ok { id := uid, role := .staff }
      else
        match parseRole roleStr with
        | some r => .ok { id := uid, role := r }
        | none => .error .invalidToken

/-- State of the one `rate_limit:{identifier}:{window}` key after `k`
further calls to `_check_redis_rate_limit`, all made at time `now`. -/
def rateStateAfter (now maxRequests windowSeconds : Int) :
    Nat → RateStore → RateStore
  | 0, st => st
  | k + 1, st =>
    (checkRedisRateLimit (rateStateAfter now maxRequests windowSeconds k st)
      now maxRequests windowSeconds).2

/-- Result of the `k`-th call (1-based) in a run of calls to
`_check_redis_rate_limit` at time `now` from initial store `st`. -/
def rateCallResult (now maxRequests windowSeconds : Int) (k : Nat)
    (st : RateStore) : Bool :=
  (checkRedisRateLimit (rateStateAfter now maxRequests windowSeconds (k - 1) st)
    now maxRequests windowSeconds).1

/-- State of the one `failed_auth:{identifier}` key after `k`
consecutive calls to `record_failed_auth_attempt`, all made at time
`now` with lockout TTL `lockout`. -/
def authStateAfter (now lockout : Int) : Nat → AuthCounterStore → AuthCounterStore
  | 0, st => st
  | k + 1, st => record_failed_auth_attempt (authStateAfter now lockout k st) now lockout

/-- A concrete ADMIN user of the identity service, used to instantiate
the theorems below. -/
def sampleAdmin : User :=
  { id := "u1", role := .admin, status := .active, hashedPassword := "hpw" }

/-- The default configuration with the token blacklist disabled
(`ENABLE_TOKEN_BLACKLIST = False`). -/
def cfgNoBlacklist : SecurityConfig :=
  { defaultConfig with enableTokenBlacklist := false }

/-! ## Helper lemmas -/

/-- The default token lifetimes are nonnegative whenever the configured
minute/day counts are. -/
theorem defaultExpiry_nonneg (cfg : SecurityConfig) (ttype : TokenType)
    (hacc : 0 ≤ cfg.accessTokenExpireMinutes)
    (href : 0 ≤ cfg.refreshTokenExpireDays) :
    0 ≤ defaultExpiry cfg ttype := by
  cases ttype
  · simpa [defaultExpiry] using mul_nonneg hacc (by norm_num : (0:Int) ≤ 60)
  · simpa [defaultExpiry] using mul_nonneg href (by norm_num : (0:Int) ≤ 86400)

/-- Decoding a token freshly produced by `create_token` under the same
configuration succeeds and returns exactly the claims that were
encoded. -/
theorem jwtDecode_create (cfg : SecurityConfig) (now : Int)
    (jti subject : String) (ttype : TokenType) (role : Option String)
    (hlee : 0 ≤ cfg.jwtLeewaySeconds)
    (hexp : 0 ≤ defaultExpiry cfg ttype) :
    jwtDecode cfg now (create_token cfg now jti subject ttype role) =
      .ok { sub := some subject, exp := now + defaultExpiry cfg ttype,
            iat := now, nbf := now, iss := cfg.tokenIssuer,
            aud := cfg.tokenAudience, jti := jti, type := some ttype.val,
            role := role } := by
  have h2 : ¬ (now > now + defaultExpiry cfg ttype + cfg.jwtLeewaySeconds) := by
    omega
  have h3 : ¬ (now < now - cfg.jwtLeewaySeconds) := by omega
  simp only [jwtDecode, create_token]
  rw [if_neg (by simp), if_neg h2, if_neg h3, if_neg (by simp), if_neg (by simp)]

/-- The `try` block of `verify_token` succeeds when decoding succeeds,
the token type matches, the `jti` is present and the revocation check
returns false. -/
theorem verifyTokenBody_of_decode_ok (cfg : SecurityConfig) (store : RevStore)
    (now : Int) (input : TokenInput) (expected : TokenType) (p : Payload)
    (hdec : jwtDecode cfg now input = .ok p)
    (hty : p.type = some expected.val)
    (hjt : p.jti ≠ "")
    (hrv : is_token_revoked cfg store now p.jti = .ok false) :
    verifyTokenBody cfg store now input expected = .ok p := by
  unfold verifyTokenBody
  rw [hdec]
  simp [hty, hjt, hrv]

/-- After `k ≥ 1` rate-limiter calls at time `now` starting from an
absent key, the key holds count `k` with expiry `now + window`. -/
theorem rateStateAfter_live (now maxR window : Int) (hw : 0 < window) :
    ∀ k : Nat, 1 ≤ k →
      rateStateAfter now maxR window k (.live none)
        = .live (some ((k : Int), now + window)) := by
  intro k hk
  induction k with
  | zero => omega
  | succ n ih =>
    cases Nat.eq_or_lt_of_le hk with
    | inl h =>
      have hn : n = 0 := by omega
      subst hn
      simp [rateStateAfter, checkRedisRateLimit]
    | inr h =>
      have hn : 1 ≤ n := by omega
      rw [rateStateAfter, ih hn]
      simp [checkRedisRateLimit, hw]

/-- The `k`-th rate-limiter call (1-based, from an absent key, inside
one window) reports limited exactly when the post-increment count `k`
exceeds `max_requests`. -/
theorem rateCallResult_live (now maxR window : Int) (hw : 0 < window)
    (k : Nat) (hk : 1 ≤ k) :
    rateCallResult now maxR window k (.live none)
      = decide ((k : Int) > maxR) := by
  unfold rateCallResult
  cases Nat.eq_or_lt_of_le hk with
  | inl h =>
    have : k = 1 := h.symm
    subst this
    simp [rateStateAfter, checkRedisRateLimit]
  | inr h =>
    have hk1 : 1 ≤ k - 1 := by omega
    rw [rateStateAfter_live now maxR window hw (k - 1) hk1]
    simp [checkRedisRateLimit, hw]
    have : ((k - 1 : Nat) : Int) + 1 = (k : Int) := by omega
    rw [this]

/-- After `k ≥ 1` consecutive `record_failed_auth_attempt` calls at time
`now` from an absent key, the counter holds `k` with expiry
`now + lockout`. -/
theorem authStateAfter_live (now lockout : Int) (hl : 0 < lockout) :
    ∀ k : Nat, 1 ≤ k →
      authStateAfter now lockout k (.live none)
        = .live (some ((k : Int), now + lockout)) := by
  intro k hk
  induction k with
  | zero => omega
  | succ n ih =>
    cases Nat.eq_or_lt_of_le hk with
    | inl h =>
      have hn : n = 0 := by omega
      subst hn
      simp [authStateAfter, record_failed_auth_attempt]
    | inr h =>
      have hn : 1 ≤ n := by omega
      rw [authStateAfter, ih hn]
      simp [record_failed_auth_attempt, hl]

/-- Clearing the failed-auth counter makes the lockout check report
not-limited at every time and threshold. -/
theorem clear_unlocks (st : AuthCounterStore) (t m : Int) :
    is_auth_rate_limited (clear_failed_auth_attempts st) t m = false := by
  cases st <;> rfl

/-- A successful `login` run leaves the brute-force counter state at
`clear_failed_auth_attempts` of the incoming state. -/
theorem login_ok_state (cfg : SecurityConfig) (vp : String → String → Bool)
    (ue : String → Option User) (st : AuthCounterStore) (now : Int)
    (email pw ja jr : String) (resp : TokenResponse)
    (hok : (login cfg vp ue st now email pw ja jr).1 = .ok resp) :
    (login cfg vp ue st now email pw ja jr).2
      = clear_failed_auth_attempts st := by
  unfold login at hok ⊢
  by_cases hrl : is_auth_rate_limited st now 5 = true
  · rw [if_pos hrl] at hok; exact absurd hok (by simp)
  · rw [if_neg hrl] at hok ⊢
    cases hue : ue email with
    | none => rw [hue] at hok; simp at hok
    | some u =>
      rw [hue] at hok
      dsimp only at hok ⊢
      by_cases hst : u.status ≠ UserStatus.active
      · rw [if_pos hst] at hok; simp at hok
      · rw [if_neg hst] at hok ⊢
        by_cases hvp : vp pw u.hashedPassword = true
        · rw [if_pos hvp]
        · rw [if_neg hvp] at hok; simp at hok

/-! ## Claim theorems -/

/-- Claim C1 (code bug, evaluated at the failing input): an access token
issued at `t = 0` and revoked at `t = 50` (its `jti` is in the
blacklist, blacklist enabled, store reachable) does NOT fail
verification at `t = 100` with `TokenRevoked`: the body of
`verify_token` raises `TokenRevoked`, but the function's own
`except Exception` catch-all swallows it and re-raises the generic
`InvalidToken`.  Likewise, refreshing with a refresh token already
rotated by a previous refresh call fails with `InvalidToken`, not
`TokenRevoked`. -/
theorem revoked_token_verify_yields_invalidToken :
    (revoke_token defaultConfig (.live []) 50
        (create_token defaultConfig 0 "j1" "u1" .access none)).1 = true
  ∧ verifyTokenBody defaultConfig
      (revoke_token defaultConfig (.live []) 50
        (create_token defaultConfig 0 "j1" "u1" .access none)).2 100
      (create_token defaultConfig 0 "j1" "u1" .access none) .access
      = .error (.app .tokenRevoked)
  ∧ verify_token defaultConfig
      (revoke_token defaultConfig (.live []) 50
        (create_token defaultConfig 0 "j1" "u1" .access none)).2 100
      (create_token defaultConfig 0 "j1" "u1" .access none) .access
      = .error .invalidToken
  ∧ (refresh_token defaultConfig
      (refresh_token defaultConfig (.live []) 10 (fun _ => some sampleAdmin)
        some "ja2" "jr2"
        (create_token defaultConfig 0 "jr" "u1" .refresh none)).2 20
      (fun _ => some sampleAdmin) some "ja3" "jr3"
      (create_token defaultConfig 0 "jr" "u1" .refresh none)).1
      = .error .invalidToken :=
  ⟨rfl, rfl, rfl, rfl⟩

/-- Claim C2 (code bug, evaluated at the failing input): a token with a
valid signature, expiry, issuer and audience but `type = "refresh"`
verified with expected type ACCESS does NOT fail with
`TokenTypeInvalid`: the body raises `TokenTypeInvalid` (carrying
expected and received), but `verify_token`'s own `except Exception`
catch-all swallows it and re-raises the generic `InvalidToken`. -/
theorem wrong_type_verify_yields_invalidToken :
    verifyTokenBody defaultConfig (.live []) 100
      (create_token defaultConfig 0 "j1" "u1" .refresh none) .access
      = .error (.app (.tokenTypeInvalid (some "access") (some "refresh")))
  ∧ verify_token defaultConfig (.live []) 100
      (create_token defaultConfig 0 "j1" "u1" .refresh none) .access
      = .error .invalidToken :=
  ⟨rfl, rfl⟩

/-- Claim C3: `is_token_revoked` returns false whenever the blacklist is
disabled; with the blacklist enabled and the store unreachable (client
unconfigured or operations raising) it raises `InternalServerError` in
fail-secure mode and returns false in fail-open mode; with a reachable
store it returns true exactly when a live revocation record for the
`jti` exists. -/
theorem is_token_revoked_spec (cfg : SecurityConfig) (now : Int) (jti : String) :
    (cfg.enableTokenBlacklist = false →
      ∀ st : RevStore, is_token_revoked cfg st now jti = .ok false)
  ∧ (cfg.enableTokenBlacklist = true → cfg.redisFailSecure = true →
      is_token_revoked cfg .unavailable now jti = .error .internalServerError
      ∧ is_token_revoked cfg .failing now jti = .error .internalServerError)
  ∧ (cfg.enableTokenBlacklist = true → cfg.redisFailSecure = false →
      is_token_revoked cfg .unavailable now jti = .ok false
      ∧ is_token_revoked cfg .failing now jti = .ok false)
  ∧ (cfg.enableTokenBlacklist = true → ∀ revoked : List (String × Int),
      (is_token_revoked cfg (.live revoked) now jti = .ok true ↔
        ∃ e ∈ revoked, e.1 = jti ∧ now < e.2)) := by
  refine ⟨?_, ?_, ?_, ?_⟩
  · intro h st; cases st <;> simp [is_token_revoked, h]
  · intro h hf; simp [is_token_revoked, h, hf]
  · intro h hf; simp [is_token_revoked, h, hf]
  · intro h revoked
    simp [is_token_revoked, h, List.any_eq_true]

/-- Claim C3 witness: under the default configuration (blacklist on,
fail-secure on), an unreachable store raises and a live record is
reported revoked. -/
theorem is_token_revoked_spec_witness :
    is_token_revoked defaultConfig .unavailable 0 "j"
      = .error .internalServerError
  ∧ is_token_revoked defaultConfig (.live [("j", 5)]) 0 "j" = .ok true :=
  ⟨((is_token_revoked_spec defaultConfig 0 "j").2.1 rfl rfl).1,
   ((is_token_revoked_spec defaultConfig 0 "j").2.2.2 rfl [("j", 5)]).mpr
     ⟨("j", 5), by simp, rfl, by decide⟩⟩

/-- Claim C4 counterexample: an ADMIN user's access token issued by
`create_token_pair` carries no `role` claim, and the relying service's
identity construction from its verified claims yields role STAFF — not
the subject's role ADMIN. -/
theorem access_token_role_not_recovered :
    sampleAdmin.role = .admin
  ∧ (decodeUnsafe
        (create_token_pair defaultConfig 0 "ja" "jr" sampleAdmin).accessToken).map
      Payload.role = some none
  ∧ ((verify_token defaultConfig (.live []) 0
        (create_token_pair defaultConfig 0 "ja" "jr" sampleAdmin).accessToken
        .access).bind (orgConstructUser some))
      = .ok { id := "u1", role := .staff } :=
  ⟨rfl, rfl, rfl⟩

/-- Claim C4 as amended: access tokens issued by the identity service's
login/refresh flows carry `sub = user.id` but no `role` claim, and the
relying service's identity construction — still with no database
lookup — maps any payload without a `role` claim to role STAFF, so it
recovers the subject's role only when that role is STAFF. -/
theorem access_token_staff_default (cfg : SecurityConfig) (now : Int)
    (ja jr : String) (user : User) :
    (decodeUnsafe (create_token_pair cfg now ja jr user).accessToken).map
      Payload.role = some none
  ∧ (decodeUnsafe (create_token_pair cfg now ja jr user).accessToken).map
      Payload.sub = some (some user.id)
  ∧ (∀ (p : Payload) (parseUUID : String → Option String) (s uid : String),
      p.sub = some s → parseUUID s = some uid → p.role = none →
      orgConstructUser parseUUID p = .ok { id := uid, role := .staff }) := by
  refine ⟨rfl, rfl, ?_⟩
  intro p pu s uid hs hpu hr
  simp only [orgConstructUser, hs, hpu, hr]
  rfl

/-- Claim C4 witness: the amended statement evaluated for the concrete
ADMIN user's access-token payload. -/
theorem access_token_staff_default_witness :
    (decodeUnsafe
        (create_token_pair defaultConfig 0 "ja" "jr" sampleAdmin).accessToken).map
      Payload.role = some none
  ∧ orgConstructUser some
      { sub := some "u1", exp := 900, iat := 0, nbf := 0, iss := "my-app",
        aud := "my-app:users", jti := "ja", type := some "access",
        role := none }
      = .ok { id := "u1", role := .staff } :=
  ⟨(access_token_staff_default defaultConfig 0 "ja" "jr" sampleAdmin).1,
   (access_token_staff_default defaultConfig 0 "ja" "jr" sampleAdmin).2.2
     _ some "u1" "u1" rfl rfl rfl⟩

/-- Claim C5: verifying a freshly issued token with the expected type —
fresh nonempty `jti` not in the (reachable) blacklist, nonnegative
configured lifetimes and leeway — succeeds and returns claims whose
subject is the issuing subject and whose type is the issued type. -/
theorem verify_issue_roundtrip (cfg : SecurityConfig) (now : Int)
    (subject jti : String) (ttype : TokenType)
    (revoked : List (String × Int))
    (hjti : jti ≠ "")
    (hfresh : ∀ e ∈ revoked, e.1 ≠ jti)
    (hlee : 0 ≤ cfg.jwtLeewaySeconds)
    (hacc : 0 ≤ cfg.accessTokenExpireMinutes)
    (href : 0 ≤ cfg.refreshTokenExpireDays) :
    ∃ p : Payload,
      verify_token cfg (.live revoked) now
        (create_token cfg now jti subject ttype none) ttype = .ok p
      ∧ p.sub = some subject ∧ p.type = some ttype.val := by
  refine ⟨{ sub := some subject, exp := now + defaultExpiry cfg ttype,
            iat := now, nbf := now, iss := cfg.tokenIssuer,
            aud := cfg.tokenAudience, jti := jti, type := some ttype.val,
            role := none }, ?_, rfl, rfl⟩
  have hrv : is_token_revoked cfg (.live revoked) now jti = .ok false := by
    unfold is_token_revoked
    have : revoked.any (fun e => e.1 == jti && decide (now < e.2)) = false := by
      rw [List.any_eq_false]
      intro e he
      simp [hfresh e he]
    split
    · rfl
    · simp [this]
  have hbody := verifyTokenBody_of_decode_ok cfg (.live revoked) now
    (create_token cfg now jti subject ttype none) ttype _
    (jwtDecode_create cfg now jti subject ttype none hlee
      (defaultExpiry_nonneg cfg ttype hacc href))
    rfl hjti hrv
  unfold verify_token
  rw [if_neg (by simp [create_token]), hbody]

/-- Claim C5 witness: the round-trip evaluated under the default
configuration for subject `u1` and an ACCESS token. -/
theorem verify_issue_roundtrip_witness :
    ("j1" : String) ≠ ""
  ∧ ∃ p : Payload,
      verify_token defaultConfig (.live []) 0
        (create_token defaultConfig 0 "j1" "u1" .access none) .access = .ok p
      ∧ p.sub = some "u1" ∧ p.type = some TokenType.access.val :=
  ⟨by decide,
   verify_issue_roundtrip defaultConfig 0 "u1" "j1" .access []
     (by decide) (by simp) (by decide) (by decide) (by decide)⟩

/-- Claim C6: the role check passes exactly when the current role's
priority is at least the required role's priority and raises
`NotAuthorized` exactly otherwise; ties pass, ADMIN passes every check,
`require(STAFF, CDC)` fails, `require(ADMIN, ADMIN)` succeeds and
`require(REGIONAL_MANAGER, CDC)` succeeds. -/
theorem role_checker_spec :
    (∀ (u : User) (req : UserRole),
        (roleCheckerCall u req = .ok u ↔ req.priority ≤ u.role.priority)
      ∧ (roleCheckerCall u req = .error .notAuthorized ↔
          u.role.priority < req.priority))
  ∧ (∀ u : User, u.role = .admin → ∀ req, roleCheckerCall u req = .ok u)
  ∧ (∀ u : User, u.role = .staff →
      roleCheckerCall u .cdc = .error .notAuthorized)
  ∧ (∀ u : User, u.role = .admin → roleCheckerCall u .admin = .ok u)
  ∧ (∀ u : User, u.role = .regional_manager →
      roleCheckerCall u .cdc = .ok u) := by
  refine ⟨?_, ?_, ?_, ?_, ?_⟩
  · intro u req
    unfold roleCheckerCall
    constructor
    · split <;> rename_i h <;> simp_all
    · split <;> rename_i h <;> simp_all
  · intro u h req
    unfold roleCheckerCall
    rw [h]; cases req <;> simp [UserRole.priority]
  · intro u h; unfold roleCheckerCall; rw [h]; simp [UserRole.priority]
  · intro u h; unfold roleCheckerCall; rw [h]; simp [UserRole.priority]
  · intro u h; unfold roleCheckerCall; rw [h]; simp [UserRole.priority]

/-- Claim C6 witness: the check evaluated for the concrete ADMIN user
against ADMIN and STAFF minimums. -/
theorem role_checker_spec_witness :
    roleCheckerCall sampleAdmin .admin = .ok sampleAdmin
  ∧ roleCheckerCall sampleAdmin .staff = .ok sampleAdmin :=
  ⟨role_checker_spec.2.2.2.1 sampleAdmin rfl,
   role_checker_spec.2.1 sampleAdmin rfl .staff⟩

/-- Claim C7 counterexample: STAFF is strictly below THERAPIST on the
relying service's scale (20 < 30) but not on the identity service's
scale (2 = 2), so "below under one scale iff below under the other"
fails at that pair. -/
theorem role_scale_order_mismatch :
    ¬ ((UserRole.priority .staff < UserRole.priority .therapist) ↔
       (orgRolePriority .staff < orgRolePriority .therapist)) := by
  decide

/-- Claim C7 as amended: identity-service strict order implies
relying-service strict order on every role pair, relying-service strict
order implies identity-service order-or-tie, and the STAFF/THERAPIST
pair is the only one on which the two strict orders disagree. -/
theorem role_scales_agree_one_direction :
    (∀ r1 r2 : UserRole,
      r1.priority < r2.priority → orgRolePriority r1 < orgRolePriority r2)
  ∧ (∀ r1 r2 : UserRole,
      orgRolePriority r1 < orgRolePriority r2 → r1.priority ≤ r2.priority)
  ∧ (∀ r1 r2 : UserRole,
      ¬ (r1.priority < r2.priority ↔ orgRolePriority r1 < orgRolePriority r2) →
      r1 = .staff ∧ r2 = .therapist) := by
  refine ⟨?_, ?_, ?_⟩ <;> (intro r1 r2; cases r1 <;> cases r2 <;> decide)

/-- Claim C7 witness: the order-preservation direction evaluated at the
CDC/ADMIN pair. -/
theorem role_scales_agree_witness :
    UserRole.priority .cdc < UserRole.priority .admin ∧
    orgRolePriority .cdc < orgRolePriority .admin :=
  ⟨by decide, role_scales_agree_one_direction.1 .cdc .admin (by decide)⟩

/-- Claim C8: from an absent key, with a positive window and
`max_requests ≥ 1`, the first `max_requests` calls in one window are not
limited, the `(max_requests + 1)`-th call is limited, a call after the
key's expiry resets the counter to 1 and is not limited, and a failing
store is never limited (fail open). -/
theorem rate_limiter_fixed_window (now maxR window : Int) (k : Nat)
    (hw : 0 < window) (hmax : 1 ≤ maxR) :
    (1 ≤ k → (k : Int) ≤ maxR →
      rateCallResult now maxR window k (.live none) = false)
  ∧ ((k : Int) = maxR + 1 →
      rateCallResult now maxR window k (.live none) = true)
  ∧ (∀ (c e now' : Int), e ≤ now' →
      checkRedisRateLimit (.live (some (c, e))) now' maxR window
        = (false, .live (some (1, now' + window))))
  ∧ (∀ now' : Int,
      checkRedisRateLimit .failing now' maxR window = (false, .failing)) := by
  refine ⟨?_, ?_, ?_, ?_⟩
  · intro hk hle
    rw [rateCallResult_live now maxR window hw k hk]
    simp
    omega
  · intro hke
    have hk : 1 ≤ k := by omega
    rw [rateCallResult_live now maxR window hw k hk]
    simp
    omega
  · intro c e now' hle
    simp only [checkRedisRateLimit]
    rw [if_neg (by omega)]
    simp
    omega
  · intro now'
    rfl

/-- Claim C8 witness: with `max_requests = 5` and a 60-second window,
the 3rd call is not limited, the 6th is, a call at the expiry instant
resets to an unlimited count of 1, and a failing store is not
limited. -/
theorem rate_limiter_fixed_window_witness :
    rateCallResult 0 5 60 3 (.live none) = false
  ∧ rateCallResult 0 5 60 6 (.live none) = true
  ∧ checkRedisRateLimit (.live (some (6, 60))) 60 5 60
      = (false, .live (some (1, 120)))
  ∧ checkRedisRateLimit .failing 0 5 60 = (false, .failing) :=
  ⟨(rate_limiter_fixed_window 0 5 60 3 (by decide) (by decide)).1
      (by decide) (by decide),
   (rate_limiter_fixed_window 0 5 60 6 (by decide) (by decide)).2.1 (by decide),
   (rate_limiter_fixed_window 0 5 60 6 (by decide) (by decide)).2.2.1 6 60 60
      (by decide),
   (rate_limiter_fixed_window 0 5 60 6 (by decide) (by decide)).2.2.2 0⟩

/-- Claim C9: `max_attempts` (or more) consecutive recorded failed
attempts from a clean counter, within the lockout TTL, make the
brute-force check report locked out; and any successful `login` run
leaves a state on which the brute-force check reports not locked out at
every time and threshold (the success path clears the counter). -/
theorem brute_force_lockout_spec (now lockout maxA : Int) (k : Nat) :
    (0 < lockout → 1 ≤ k → maxA ≤ (k : Int) →
      is_auth_rate_limited (authStateAfter now lockout k (.live none)) now maxA
        = true)
  ∧ (∀ (cfg : SecurityConfig) (vp : String → String → Bool)
      (ue : String → Option User) (st : AuthCounterStore)
      (email pw ja jr : String) (resp : TokenResponse),
      (login cfg vp ue st now email pw ja jr).1 = .ok resp →
      ∀ t m : Int,
        is_auth_rate_limited (login cfg vp ue st now email pw ja jr).2 t m
          = false) := by
  constructor
  · intro hl hk hle
    rw [authStateAfter_live now lockout hl k hk]
    simp [is_auth_rate_limited, hl, hle]
  · intro cfg vp ue st email pw ja jr resp hok t m
    rw [login_ok_state cfg vp ue st now email pw ja jr resp hok]
    exact clear_unlocks st t m

/-- Claim C9 witness: five recorded failures (threshold 5, 300-second
lockout) lock the identifier out, and a concrete successful login from
a state holding four failures leaves the check reporting not locked
out. -/
theorem brute_force_lockout_witness :
    is_auth_rate_limited (authStateAfter 0 300 5 (.live none)) 0 5 = true
  ∧ is_auth_rate_limited
      (login defaultConfig (fun _ _ => true) (fun _ => some sampleAdmin)
        (.live (some (4, 100))) 0 "e" "pw" "ja" "jr").2 7 5 = false :=
  ⟨(brute_force_lockout_spec 0 300 5 5).1 (by decide) (by decide) (by decide),
   (brute_force_lockout_spec 0 300 5 5).2 defaultConfig (fun _ _ => true)
     (fun _ => some sampleAdmin) (.live (some (4, 100))) "e" "pw" "ja" "jr"
     (create_token_pair defaultConfig 0 "ja" "jr" sampleAdmin) rfl 7 5⟩

/-- Claim C10: with the token blacklist disabled, `revoke_token` returns
false for every token (store and expiry notwithstanding), `refresh_token`
never returns a new pair for any input, and on the valid-token path
(verification succeeds, subject parses, user exists) it fails with
`InternalServerError` — a valid refresh token can never be rotated. -/
theorem blacklist_disabled_refresh_never_rotates (cfg : SecurityConfig)
    (hbl : cfg.enableTokenBlacklist = false) :
    (∀ (store : RevStore) (now : Int) (input : TokenInput),
      (revoke_token cfg store now input).1 = false)
  ∧ (∀ (store : RevStore) (now : Int) (userById : String → Option User)
      (parseUUID : String → Option String) (ja jr : String)
      (tok : TokenInput) (resp : TokenResponse),
      (refresh_token cfg store now userById parseUUID ja jr tok).1
        ≠ .ok resp)
  ∧ (∀ (store : RevStore) (now : Int) (userById : String → Option User)
      (parseUUID : String → Option String) (ja jr : String)
      (tok : TokenInput) (p : Payload) (uid : String) (u : User),
      verify_token cfg store now tok .refresh = .ok p →
      p.sub.bind parseUUID = some uid →
      userById uid = some u →
      (refresh_token cfg store now userById parseUUID ja jr tok).1
        = .error .internalServerError) := by
  have hrev : ∀ (store : RevStore) (now : Int) (input : TokenInput),
      (revoke_token cfg store now input).1 = false := by
    intro store now input; simp [revoke_token, hbl]
  refine ⟨hrev, ?_, ?_⟩
  · intro store now userById parseUUID ja jr tok resp
    unfold refresh_token
    cases hv : verify_token cfg store now tok .refresh with
    | error e => simp [hv]
    | ok p =>
      simp only [hv]
      cases hs : p.sub.bind parseUUID with
      | none => simp [hs]
      | some uid =>
        simp only [hs]
        cases hu : userById uid with
        | none => simp [hu]
        | some u => simp [hu, hrev]
  · intro store now userById parseUUID ja jr tok p uid u hv hs hu
    unfold refresh_token
    simp [hv, hs, hu, hrev]

/-- Claim C10 witness: with the blacklist disabled, refreshing a valid,
unexpired refresh token for an existing user fails with
`InternalServerError`. -/
theorem blacklist_disabled_refresh_witness :
    (refresh_token cfgNoBlacklist (.live []) 10 (fun _ => some sampleAdmin)
      some "ja2" "jr2"
      (create_token cfgNoBlacklist 0 "jr" "u1" .refresh none)).1
      = .error .internalServerError :=
  (blacklist_disabled_refresh_never_rotates cfgNoBlacklist rfl).2.2
    (.live []) 10 (fun _ => some sampleAdmin) some "ja2" "jr2"
    (create_token cfgNoBlacklist 0 "jr" "u1" .refresh none)
    { sub := some "u1", exp := 604800, iat := 0, nbf := 0, iss := "my-app",
      aud := "my-app:users", jti := "jr", type := some "refresh",
      role := none }
    "u1" sampleAdmin rfl rfl rfl

end Neurohue
